import Mathlib

/-!
# Verification of the `tools` repository's schema-inferring SQL exporters

Shallow embedding of the two `to_sql` variants
(`src/Python/python_to_sql.py`, the SQL-Server/pyodbc variant, and
`src/Python/python_to_mysql.py`, the MySQL variant) and of
`last_sunday` (`src/Python/date_manipulations.py`), together with
theorems settling the frozen claims about them.

Conventions of the embedding:
* a pandas cell value is modelled by inductive types (`ObjVal` for
  object-dtype cells, `Int` for integer cells, `FloatRepr` for float
  cells carrying their Python decimal string, `Cell` for row values);
* Python `max`/`min` over a nonempty iterable is `pyMax`/`pyMin`;
* Python `str.replace`, `" ".join`, `re.split(".", s)` are modelled
  character-by-character on `String.data`;
* database work is modelled by a trace of `DbAction`s driven by a
  `DbBehavior` oracle saying which driver calls succeed; a raised
  driver/Python error is an `ExportError` result, and straight-line
  Python code stops at the first raised error.
-/

set_option autoImplicit false

namespace Tools

/-! ## Definitions -/

/-- Python `max(iterable)` on the nonempty sequence `x :: xs`. -/
def pyMax {α : Type} [LinearOrder α] (x : α) (xs : List α) : α :=
  xs.foldl max x

/-- Python `min(iterable)` on the nonempty sequence `x :: xs`. -/
def pyMin {α : Type} [LinearOrder α] (x : α) (xs : List α) : α :=
  xs.foldl min x

/-- Python `date.weekday()` on day ordinal `d` (epoch day 0 is a Monday,
so Monday = 0 … Sunday = 6, as in Python). -/
def pyWeekday (d : Int) : Int := d % 7

/-- The per-row lambda of `last_sunday`
(`src/Python/date_manipulations.py`, lines 39-49):
`d - timedelta(days=d.weekday() + 1)` unless `d.weekday() == 6`,
in which case `d` itself. -/
def lastSundayDay (d : Int) : Int :=
  if pyWeekday d = 6 then d else d - (pyWeekday d + 1)

/-- `last_sunday`'s new column: the lambda applied to every row. -/
def lastSundayCol (dates : List Int) : List Int :=
  dates.map lastSundayDay

/-- A cell of an object-dtype (text) pandas column: a string, Python
`None`, or a float NaN standing for a missing value. -/
inductive ObjVal where
  | s (t : String)
  | pyNone
  | nan
deriving DecidableEq

/-- Python `str()` applied to an object-column cell. -/
def pyStrObj : ObjVal → String
  | .s t => t
  | .pyNone => "None"
  | .nan => "nan"

/-- `len(str(x))` for an object-column cell. -/
def objLen (x : ObjVal) : Nat := (pyStrObj x).length

/-- Whether an object cell is a missing-value sentinel (`None` or NaN). -/
def isNull : ObjVal → Bool
  | .pyNone => true
  | .nan => true
  | .s _ => false

/-- Object-dtype branch of both `to_sql` variants
(`python_to_sql.py` lines 45-47, `python_to_mysql.py` lines 68-70):
`VARCHAR` with width `max(df[col].apply(str).apply(len))`, the maximum
taken over every cell of the column (nulls included).  `none` models the
`ValueError` Python's `max` raises on an empty column. -/
def inferObjCol (vals : List ObjVal) : Option (String × String) :=
  match vals with
  | [] => none
  | v :: vs =>
    some ("VARCHAR", "(" ++ toString (pyMax (objLen v) (vs.map objLen)) ++ ")")

/-- Integer-dtype branch of the SQL-Server variant
(`python_to_sql.py` lines 49-64): `TINYINT` when `min ≥ 0 ∧ max ≤ 255`,
else the first of `SMALLINT`/`INT`/`BIGINT` whose bound covers
`abs(max)`. -/
def inferIntSql (vals : List Int) : Option (String × String) :=
  match vals with
  | [] => none
  | v :: vs =>
    if 0 ≤ pyMin v vs ∧ pyMax v vs ≤ 255 then some ("TINYINT", "")
    else if (pyMax v vs).natAbs < 2 ^ 15 then some ("SMALLINT", "")
    else if (pyMax v vs).natAbs < 2 ^ 31 then some ("INT", "")
    else some ("BIGINT", "")

/-- `len(str(n))` for a Python int (`str` of a negative int includes the
minus sign). -/
def intStrLen (n : Int) : Nat := (toString n).length

/-- Display width of the MySQL integer types: the maximum `len(str(value))`
over the column, minus one when the column minimum is negative
(`python_to_mysql.py` lines 78-81 and the analogous branches below it). -/
def mysqlIntLen (mn : Int) (maxLen : Nat) : String :=
  if mn < 0 then "(" ++ toString (maxLen - 1) ++ ")"
  else "(" ++ toString maxLen ++ ")"

/-- Integer-dtype branch of the MySQL variant
(`python_to_mysql.py` lines 72-105): ascending signed ladder
`TINYINT`/`SMALLINT`/`MEDIUMINT`/`INT`/`BIGINT` on `[min, max]`, first fit
wins; a column outside every branch leaves `dat_type` unbound and raises
(modelled by `none`). -/
def inferIntMysql (vals : List Int) : Option (String × String) :=
  match vals with
  | [] => none
  | v :: vs =>
    if -128 ≤ pyMin v vs ∧ pyMax v vs ≤ 127 then
      some ("TINYINT", mysqlIntLen (pyMin v vs) (pyMax (intStrLen v) (vs.map intStrLen)))
    else if -32768 ≤ pyMin v vs ∧ pyMax v vs ≤ 32767 then
      some ("SMALLINT", mysqlIntLen (pyMin v vs) (pyMax (intStrLen v) (vs.map intStrLen)))
    else if -8388608 ≤ pyMin v vs ∧ pyMax v vs ≤ 8388607 then
      some ("MEDIUMINT", mysqlIntLen (pyMin v vs) (pyMax (intStrLen v) (vs.map intStrLen)))
    else if -2147483648 ≤ pyMin v vs ∧ pyMax v vs ≤ 2147483647 then
      some ("INT", mysqlIntLen (pyMin v vs) (pyMax (intStrLen v) (vs.map intStrLen)))
    else if -9223372036854775808 ≤ pyMin v vs ∧ pyMax v vs ≤ 9223372036854775807 then
      some ("BIGINT", mysqlIntLen (pyMin v vs) (pyMax (intStrLen v) (vs.map intStrLen)))
    else none

/-- A float cell, carried as its Python decimal string
`intStr ++ "." ++ fracStr` (Python `str` of a float shows a decimal
point; scientific notation is outside the embedding). -/
structure FloatRepr where
  intStr : String
  fracStr : String
deriving DecidableEq

/-- Python `str()` of a float cell. -/
def pyFloatStr (f : FloatRepr) : String := f.intStr ++ "." ++ f.fracStr

/-- `len(str(f))` for a float cell. -/
def floatStrLen (f : FloatRepr) : Nat := (pyFloatStr f).length

/-- `re.split("\.", s)` of `python_to_sql.py` line 85 and
`str.split(pat=".")` of `python_to_mysql.py` line 109: split a character
list at every `'.'`. -/
def splitDotChars : List Char → List (List Char)
  | [] => [[]]
  | c :: cs =>
    if c = '.' then [] :: splitDotChars cs
    else
      match splitDotChars cs with
      | [] => [[c]]
      | p :: ps => (c :: p) :: ps

/-- Length of the `i`-th field of `str(f)` split at the decimal point. -/
def splitFieldLen (f : FloatRepr) (i : Nat) : Nat :=
  ((splitDotChars (pyFloatStr f).data).getD i []).length

/-- Number of digit characters of a string (what the claim calls the
"total digit count" of a value's decimal representation). -/
def countDigits (s : String) : Nat := (s.data.filter Char.isDigit).length

/-- Float-dtype branch of the SQL-Server variant
(`python_to_sql.py` lines 66-87): select the first value whose `str` has
maximal length; emit `NUMERIC(len(str(max_value)), len(split(str(max_value), ".")[1]))`. -/
def inferFloatSql (vals : List FloatRepr) : Option (String × String) :=
  match vals with
  | [] => none
  | v :: vs =>
    match (v :: vs).find?
        (fun f => floatStrLen f == pyMax (floatStrLen v) (vs.map floatStrLen)) with
    | some m =>
      some ("NUMERIC",
        "(" ++ toString (pyFloatStr m).length ++ "," ++
          toString (splitFieldLen m 1) ++ ")")
    | none => none

/-- Float-dtype branch of the MySQL variant
(`python_to_mysql.py` lines 107-117): split every `str` value at the
point; `NUMERIC(length_num + length_dec, length_dec)` with `length_num`
and `length_dec` the maxima of the two field lengths over the column. -/
def inferFloatMysql (vals : List FloatRepr) : Option (String × String) :=
  match vals with
  | [] => none
  | v :: vs =>
    some ("NUMERIC",
      "(" ++
        toString (pyMax (splitFieldLen v 0) (vs.map (fun f => splitFieldLen f 0)) +
          pyMax (splitFieldLen v 1) (vs.map (fun f => splitFieldLen f 1))) ++
      "," ++
        toString (pyMax (splitFieldLen v 1) (vs.map (fun f => splitFieldLen f 1))) ++
      ")")

/-- A cell of a dataframe row, as handed to the insert loop by
`df.iterrows()`. -/
inductive Cell where
  | cInt (n : Int)
  | cFloat (f : FloatRepr)
  | cNaN
  | cStr (t : String)
  | cNone
deriving DecidableEq

/-- A parameter bound into a parameterized INSERT: a value or the
driver's explicit null marker (Python `None`). -/
inductive Param where
  | pNull
  | pCell (c : Cell)
deriving DecidableEq

/-- NaN sanitization of the MySQL variant (`python_to_mysql.py` lines
159-168): a float NaN becomes `None`; every other value passes through. -/
def mysqlSanitize (c : Cell) : Param :=
  match c with
  | .cNaN => .pNull
  | c => .pCell c

/-- A column of the input dataframe with its pandas dtype made explicit:
object (text), integer, float, or any other dtype (bool, datetime, …)
that no branch of the inference loop handles. -/
inductive Column where
  | obj (vals : List ObjVal)
  | intc (vals : List Int)
  | floatc (vals : List FloatRepr)
  | other
deriving DecidableEq

/-- A value of the `col_dat_type` dictionary: a caller override is stored
raw (a Python string, `python_to_sql.py` lines 32-40); an inferred type is
stored as the two-element list `[dat_type + dat_len, "NULL"]` (lines
88-93). -/
inductive SchemaVal where
  | ovr (t : String)
  | inferred (parts : List String)
deriving DecidableEq

/-- Python `"sep".join(list_of_strings)`. -/
def pyJoin (sep : String) (parts : List String) : String :=
  String.intercalate sep parts

/-- Python `"sep".join(s)` with `s` a string iterates its characters. -/
def pyJoinChars (sep : String) (t : String) : String :=
  String.intercalate sep (t.data.map (fun c => String.singleton c))

/-- `" ".join(col_dat_type[i])` (`python_to_sql.py` line 98,
`python_to_mysql.py` line 129) for either kind of stored value: joining a
stored LIST gives `"TYPE NULL"`, joining a stored override STRING
space-separates its characters. -/
def schemaText : SchemaVal → String
  | .ovr t => pyJoinChars " " t
  | .inferred parts => pyJoin " " parts

/-- `x.replace(".", "_")` on a column name (`python_to_sql.py` line 24). -/
def sanitizeName (s : String) : String :=
  String.mk (s.data.map (fun c => if c = '.' then '_' else c))

/-- `col in column_dat_type.keys()` and the override value read back. -/
def lookupOv (ov : List (String × String)) (n : String) : Option String :=
  (ov.find? (fun p => p.1 == n)).map Prod.snd

/-- Per-column inference of the SQL-Server variant, dispatching on the
column dtype (`python_to_sql.py` lines 45-87); an unhandled dtype leaves
`dat_type` unbound so line 91 raises, modelled by `none`. -/
def inferColSql : Column → Option (String × String)
  | .obj vals => inferObjCol vals
  | .intc vals => inferIntSql vals
  | .floatc vals => inferFloatSql vals
  | .other => none

/-- Per-column inference of the MySQL variant
(`python_to_mysql.py` lines 68-117). -/
def inferColMysql : Column → Option (String × String)
  | .obj vals => inferObjCol vals
  | .intc vals => inferIntMysql vals
  | .floatc vals => inferFloatMysql vals
  | .other => none

/-- The column loop building the `col_dat_type` dictionary: overrides are
taken verbatim (with `continue`), other columns are inferred; `none`
models the error raised inside the loop. -/
def buildSchemas (inferCol : Column → Option (String × String))
    (ov : List (String × String)) :
    List (String × Column) → Option (List (String × SchemaVal))
  | [] => some []
  | (n, c) :: rest =>
    match lookupOv ov n with
    | some t =>
      (buildSchemas inferCol ov rest).map (fun r => (n, SchemaVal.ovr t) :: r)
    | none =>
      match inferCol c with
      | some (t, l) =>
        (buildSchemas inferCol ov rest).map
          (fun r => (n, SchemaVal.inferred [t ++ l, "NULL"]) :: r)
      | none => none

/-- The joined column clause of the CREATE TABLE statement
(`python_to_sql.py` lines 97-99, `python_to_mysql.py` lines 128-130). -/
def ddlCols (schemas : List (String × SchemaVal)) : String :=
  pyJoin ", " (schemas.map (fun p => p.1 ++ " " ++ schemaText p.2))

/-- The CREATE TABLE statement of the SQL-Server variant (lines 115-119). -/
def sqlDdl (database tableName : String)
    (schemas : List (String × SchemaVal)) : String :=
  "CREATE TABLE [" ++ database ++ "].[dbo].[" ++ tableName ++ "] (" ++
    ddlCols schemas ++ ")"

/-- The CREATE TABLE statement of the MySQL variant (lines 143-147). -/
def mysqlDdl (tableName : String) (schemas : List (String × SchemaVal)) : String :=
  "CREATE TABLE " ++ tableName ++ " (" ++ ddlCols schemas ++ ")"

/-- One database-driver call, as recorded in the execution trace. -/
inductive DbAction where
  | connect
  | createTable (stmt : String)
  | commit
  | insertRow (params : List Param)
  | closeCursor
  | closeConn
deriving DecidableEq

/-- The error a `to_sql` call raises: inference failure, or a driver
failure on connect, CREATE TABLE, or a row insert. -/
inductive ExportError where
  | inferError
  | connectError
  | createError
  | insertError
deriving DecidableEq

/-- The outcome of a `to_sql` call: normal return or a raised error. -/
inductive ExportResult where
  | ok
  | err (e : ExportError)
deriving DecidableEq

/-- Oracle for the external database: which driver calls succeed. -/
structure DbBehavior where
  connectOk : Bool
  createOk : Bool
  insertOk : List Param → Bool

/-- The row-insert loop of the SQL-Server variant
(`python_to_sql.py` lines 124-131): each row's values are bound RAW (no
NaN handling); the loop stops at the first failing execute. -/
def insertLoopSql (db : DbBehavior) :
    List (List Cell) → ExportResult × List DbAction
  | [] => (.ok, [])
  | r :: rs =>
    if db.insertOk (r.map Param.pCell) then
      ((insertLoopSql db rs).1,
        .insertRow (r.map Param.pCell) :: (insertLoopSql db rs).2)
    else (.err .insertError, [.insertRow (r.map Param.pCell)])

/-- The row-insert loop of the MySQL variant (`python_to_mysql.py` lines
157-170): NaN cells are replaced by `None` before the execute. -/
def insertLoopMysql (db : DbBehavior) :
    List (List Cell) → ExportResult × List DbAction
  | [] => (.ok, [])
  | r :: rs =>
    if db.insertOk (r.map mysqlSanitize) then
      ((insertLoopMysql db rs).1,
        .insertRow (r.map mysqlSanitize) :: (insertLoopMysql db rs).2)
    else (.err .insertError, [.insertRow (r.map mysqlSanitize)])

/-- The observable outcome of a `to_sql` call: its result, the trace of
driver calls it issued, and the column labels the caller's dataframe
object carries after the call (`df.columns = col_names` mutates it). -/
structure ExportOutcome where
  result : ExportResult
  trace : List DbAction
  dfCols : List String
deriving DecidableEq

/-- `to_sql` of `python_to_sql.py` end to end: sanitize and assign column
names, infer or override per-column types, connect, CREATE TABLE with a
commit, insert all rows, commit, close cursor and connection.  A raised
error aborts the remaining straight-line code, so nothing after the
failing call is issued. -/
def exportSql (cols : List (String × Column)) (rows : List (List Cell))
    (tableName database : String) (ov : List (String × String))
    (db : DbBehavior) : ExportOutcome :=
  match buildSchemas inferColSql ov (cols.map (fun p => (sanitizeName p.1, p.2))) with
  | none => ⟨.err .inferError, [], cols.map (fun p => sanitizeName p.1)⟩
  | some schemas =>
    if db.connectOk then
      if db.createOk then
        match insertLoopSql db rows with
        | (.ok, tr) =>
          ⟨.ok,
            .connect :: .createTable (sqlDdl database tableName schemas) ::
              .commit :: (tr ++ [.commit, .closeCursor, .closeConn]),
            cols.map (fun p => sanitizeName p.1)⟩
        | (.err e, tr) =>
          ⟨.err e,
            .connect :: .createTable (sqlDdl database tableName schemas) ::
              .commit :: tr,
            cols.map (fun p => sanitizeName p.1)⟩
      else
        ⟨.err .createError,
          [.connect, .createTable (sqlDdl database tableName schemas)],
          cols.map (fun p => sanitizeName p.1)⟩
    else ⟨.err .connectError, [.connect], cols.map (fun p => sanitizeName p.1)⟩

/-- `to_sql` of `python_to_mysql.py` end to end: as the SQL-Server variant
but with NaN-sanitized inserts, no commit after CREATE TABLE, a single
final commit, and no cursor/connection close on any path. -/
def exportMysql (cols : List (String × Column)) (rows : List (List Cell))
    (tableName : String) (ov : List (String × String))
    (db : DbBehavior) : ExportOutcome :=
  match buildSchemas inferColMysql ov (cols.map (fun p => (sanitizeName p.1, p.2))) with
  | none => ⟨.err .inferError, [], cols.map (fun p => sanitizeName p.1)⟩
  | some schemas =>
    if db.connectOk then
      if db.createOk then
        match insertLoopMysql db rows with
        | (.ok, tr) =>
          ⟨.ok,
            .connect :: .createTable (mysqlDdl tableName schemas) ::
              (tr ++ [.commit]),
            cols.map (fun p => sanitizeName p.1)⟩
        | (.err e, tr) =>
          ⟨.err e,
            .connect :: .createTable (mysqlDdl tableName schemas) :: tr,
            cols.map (fun p => sanitizeName p.1)⟩
      else
        ⟨.err .createError,
          [.connect, .createTable (mysqlDdl tableName schemas)],
          cols.map (fun p => sanitizeName p.1)⟩
    else ⟨.err .connectError, [.connect], cols.map (fun p => sanitizeName p.1)⟩

/-! ## Theorems -/

theorem pyMax_cons {α : Type} [LinearOrder α] (x a : α) (xs : List α) :
    pyMax x (a :: xs) = pyMax (max x a) xs := rfl

theorem pyMin_cons {α : Type} [LinearOrder α] (x a : α) (xs : List α) :
    pyMin x (a :: xs) = pyMin (min x a) xs := rfl

theorem pyMax_mem {α : Type} [LinearOrder α] (x : α) (xs : List α) :
    pyMax x xs ∈ x :: xs := by
  induction xs generalizing x with
  | nil => simp [pyMax]
  | cons a xs ih =>
    rw [pyMax_cons]
    have h := ih (max x a)
    rw [List.mem_cons] at h
    rcases h with h | h
    · rw [List.mem_cons, List.mem_cons]
      rcases max_choice x a with hm | hm
      · exact Or.inl (h.trans hm)
      · exact Or.inr (Or.inl (h.trans hm))
    · exact List.mem_cons_of_mem _ (List.mem_cons_of_mem _ h)

theorem self_le_pyMax {α : Type} [LinearOrder α] (x : α) (xs : List α) :
    x ≤ pyMax x xs := by
  induction xs generalizing x with
  | nil => simp [pyMax]
  | cons a xs ih =>
    rw [pyMax_cons]
    exact le_trans (le_max_left x a) (ih (max x a))

theorem le_pyMax_of_mem {α : Type} [LinearOrder α] {y x : α} {xs : List α}
    (h : y ∈ x :: xs) : y ≤ pyMax x xs := by
  induction xs generalizing x with
  | nil =>
    rw [List.mem_singleton] at h
    simp [pyMax, h]
  | cons a xs ih =>
    rw [pyMax_cons]
    rw [List.mem_cons, List.mem_cons] at h
    rcases h with h | h | h
    · exact le_trans (h.le.trans (le_max_left x a)) (self_le_pyMax _ _)
    · exact le_trans (h.le.trans (le_max_right x a)) (self_le_pyMax _ _)
    · exact ih (List.mem_cons_of_mem _ h)

theorem pyMin_mem {α : Type} [LinearOrder α] (x : α) (xs : List α) :
    pyMin x xs ∈ x :: xs := by
  induction xs generalizing x with
  | nil => simp [pyMin]
  | cons a xs ih =>
    rw [pyMin_cons]
    have h := ih (min x a)
    rw [List.mem_cons] at h
    rcases h with h | h
    · rw [List.mem_cons, List.mem_cons]
      rcases min_choice x a with hm | hm
      · exact Or.inl (h.trans hm)
      · exact Or.inr (Or.inl (h.trans hm))
    · exact List.mem_cons_of_mem _ (List.mem_cons_of_mem _ h)

theorem pyMin_le_self {α : Type} [LinearOrder α] (x : α) (xs : List α) :
    pyMin x xs ≤ x := by
  induction xs generalizing x with
  | nil => simp [pyMin]
  | cons a xs ih =>
    rw [pyMin_cons]
    exact le_trans (ih (min x a)) (min_le_left x a)

theorem pyMin_le_of_mem {α : Type} [LinearOrder α] {y x : α} {xs : List α}
    (h : y ∈ x :: xs) : pyMin x xs ≤ y := by
  induction xs generalizing x with
  | nil =>
    rw [List.mem_singleton] at h
    simp [pyMin, h]
  | cons a xs ih =>
    rw [pyMin_cons]
    rw [List.mem_cons, List.mem_cons] at h
    rcases h with h | h | h
    · exact le_trans (pyMin_le_self _ _) ((min_le_left x a).trans h.ge)
    · exact le_trans (pyMin_le_self _ _) ((min_le_right x a).trans h.ge)
    · exact ih (List.mem_cons_of_mem _ h)

/-- The maximum of `f` over the nonempty list `v :: vs` is attained. -/
theorem pyMax_map_attained {α β : Type} [LinearOrder β] (f : α → β)
    (v : α) (vs : List α) :
    ∃ y ∈ v :: vs, f y = pyMax (f v) (vs.map f) := by
  have h := pyMax_mem (f v) (vs.map f)
  rw [show f v :: vs.map f = (v :: vs).map f from rfl] at h
  rcases List.mem_map.mp h with ⟨y, hy, he⟩
  exact ⟨y, hy, he⟩

/-- Every value of `f` on the nonempty list `v :: vs` is at most the maximum. -/
theorem pyMax_map_le {α β : Type} [LinearOrder β] (f : α → β)
    {y : α} {v : α} {vs : List α} (h : y ∈ v :: vs) :
    f y ≤ pyMax (f v) (vs.map f) := by
  apply le_pyMax_of_mem
  rw [show f v :: vs.map f = (v :: vs).map f from rfl]
  exact List.mem_map_of_mem f h

/-- A mapped `pyMax` equals any attained upper bound. -/
theorem pyMax_map_eq {α : Type} (f : α → Nat) (v : α) (vs : List α) (n : Nat)
    (hub : ∀ x ∈ v :: vs, f x ≤ n) (hat : ∃ x ∈ v :: vs, f x = n) :
    pyMax (f v) (vs.map f) = n := by
  rcases pyMax_map_attained f v vs with ⟨y, hy, he⟩
  rcases hat with ⟨x, hx, hxe⟩
  have h2 := hub y hy
  have h3 := pyMax_map_le f hx
  omega

/-- Claim C10: for every successfully parsed date, `last_sunday` yields the
most recent Sunday on or before that date: the date itself when its weekday
is Sunday, otherwise the date minus (weekday + 1) days, which is a Sunday
strictly before the date and at most 6 days earlier. -/
theorem C10_last_sunday_correct (d : Int) :
    pyWeekday (lastSundayDay d) = 6 ∧
    lastSundayDay d ≤ d ∧
    d - lastSundayDay d ≤ 6 ∧
    (∀ s : Int, lastSundayDay d < s → s ≤ d → pyWeekday s ≠ 6) ∧
    (pyWeekday d = 6 → lastSundayDay d = d) ∧
    (pyWeekday d ≠ 6 →
      lastSundayDay d = d - (pyWeekday d + 1) ∧ lastSundayDay d < d) := by
  unfold lastSundayDay pyWeekday
  by_cases h : d % 7 = 6
  · rw [if_pos h]
    refine ⟨h, le_refl d, by omega, ?_, fun _ => rfl, fun hc => absurd h hc⟩
    intro s h1 h2 _
    omega
  · rw [if_neg h]
    have hr : 0 ≤ d % 7 := Int.emod_nonneg d (by norm_num)
    have hr7 : d % 7 < 7 := Int.emod_lt_of_pos d (by norm_num)
    refine ⟨?_, by omega, by omega, ?_, fun hc => absurd hc h, fun _ => ⟨rfl, by omega⟩⟩
    · omega
    · intro s h1 h2 hs
      omega

/-- Witness for C10 at the concrete day 10 (a Thursday): its last Sunday
is day 6. -/
theorem C10_last_sunday_correct_witness :
    pyWeekday (lastSundayDay 10) = 6 ∧ lastSundayDay 10 ≤ 10 :=
  ⟨(C10_last_sunday_correct 10).1, (C10_last_sunday_correct 10).2.1⟩

/-- Claim C1 counterexample: the all-integer column `[-1, 0]` lies in
`[-128, 127]`, yet the SQL-Server variant infers `SMALLINT`, not the
claimed 1-byte tier `TINYINT` (its `TINYINT` branch requires `min ≥ 0`). -/
theorem C1_counterexample :
    ((-128 : Int) ≤ -1 ∧ (-1 : Int) ≤ 127 ∧ (-128 : Int) ≤ 0 ∧ (0 : Int) ≤ 127) ∧
    (inferIntSql [-1, 0]).map Prod.fst = some "SMALLINT" ∧
    (some "SMALLINT" : Option String) ≠ some "TINYINT" := by
  refine ⟨by norm_num, by decide, by decide⟩

/-- Claim C1 (amended): for an all-integer column with values in
`[-128, 127]`, the MySQL variant infers `TINYINT`; the SQL-Server variant
infers `TINYINT` only when the column minimum is nonnegative (its 1-byte
branch is the unsigned range `[0, 255]`) and infers `SMALLINT` when the
column contains a negative value. -/
theorem C1_tinyint_amended (v : Int) (vs : List Int)
    (hb : ∀ x ∈ v :: vs, -128 ≤ x ∧ x ≤ 127) :
    (inferIntMysql (v :: vs)).map Prod.fst = some "TINYINT" ∧
    (0 ≤ pyMin v vs → (inferIntSql (v :: vs)).map Prod.fst = some "TINYINT") ∧
    (pyMin v vs < 0 → (inferIntSql (v :: vs)).map Prod.fst = some "SMALLINT") := by
  have hmn : -128 ≤ pyMin v vs := (hb _ (pyMin_mem v vs)).1
  have hmx : pyMax v vs ≤ 127 := (hb _ (pyMax_mem v vs)).2
  have hmx2 : -128 ≤ pyMax v vs :=
    le_trans (hb v (List.mem_cons_self v vs)).1 (self_le_pyMax v vs)
  refine ⟨?_, ?_, ?_⟩
  · simp only [inferIntMysql]
    rw [if_pos ⟨hmn, hmx⟩]
    rfl
  · intro h0
    simp only [inferIntSql]
    rw [if_pos ⟨h0, le_trans hmx (by norm_num)⟩]
    rfl
  · intro hneg
    simp only [inferIntSql]
    rw [if_neg (by rintro ⟨h1, _⟩; omega), if_pos (by omega)]
    rfl

/-- Witness for C1 at the concrete column `[0, -1]`. -/
theorem C1_tinyint_amended_witness :
    (inferIntMysql [0, -1]).map Prod.fst = some "TINYINT" ∧
    (inferIntSql [0, -1]).map Prod.fst = some "SMALLINT" :=
  ⟨(C1_tinyint_amended 0 [-1] (by decide)).1,
   (C1_tinyint_amended 0 [-1] (by decide)).2.2 (by decide)⟩

/-- Claim C6 counterexample: for the object column `["ab", None]`, the code
takes the maximum stringified length over every cell (nulls included:
`str(None) = "None"`, length 4) and emits `VARCHAR(4)`, while the maximum
length among the non-null values is 2. -/
theorem C6_counterexample :
    inferObjCol [ObjVal.s "ab", ObjVal.pyNone] = some ("VARCHAR", "(4)") ∧
    ([ObjVal.s "ab", ObjVal.pyNone].filter (fun x => !isNull x)).map objLen = [2] ∧
    ("(4)" : String) ≠ "(2)" := by
  refine ⟨by decide, by decide, by decide⟩

/-- Claim C6 (amended): the inferred `VARCHAR` width is the maximum
stringified length over ALL cells of the column, null sentinels included
(`None` counts as the 4-character string `"None"`, NaN as the 3-character
`"nan"`); on a column with no null this coincides with the claim. -/
theorem C6_varchar_amended (v : ObjVal) (vs : List ObjVal) (n : Nat)
    (hub : ∀ x ∈ v :: vs, objLen x ≤ n)
    (hat : ∃ x ∈ v :: vs, objLen x = n) :
    inferObjCol (v :: vs) = some ("VARCHAR", "(" ++ toString n ++ ")") := by
  have h1 : pyMax (objLen v) (vs.map objLen) = n := pyMax_map_eq objLen v vs n hub hat
  simp only [inferObjCol]
  rw [h1]

/-- Witness for C6 at the concrete column `["ab", None]`: width 4. -/
theorem C6_varchar_amended_witness :
    inferObjCol [ObjVal.s "ab", ObjVal.pyNone] =
      some ("VARCHAR", "(" ++ toString 4 ++ ")") :=
  C6_varchar_amended (ObjVal.s "ab") [ObjVal.pyNone] 4 (by decide) (by decide)

theorem string_length_data (s : String) : s.length = s.data.length := rfl

theorem dot_data : ("." : String).data = ['.'] := rfl

theorem pyFloatStr_data (f : FloatRepr) :
    (pyFloatStr f).data = f.intStr.data ++ '.' :: f.fracStr.data := by
  unfold pyFloatStr
  rw [String.data_append, String.data_append, dot_data, List.append_assoc]
  rfl

theorem pyFloatStr_length (f : FloatRepr) :
    (pyFloatStr f).length = f.intStr.length + 1 + f.fracStr.length := by
  rw [string_length_data, pyFloatStr_data, List.length_append, List.length_cons]
  simp only [string_length_data]
  omega

theorem splitDotChars_no_dot {l : List Char} (h : '.' ∉ l) :
    splitDotChars l = [l] := by
  induction l with
  | nil => rfl
  | cons c cs ih =>
    rw [List.mem_cons] at h
    push_neg at h
    simp only [splitDotChars]
    rw [if_neg (fun hc => h.1 hc.symm), ih h.2]

theorem splitDotChars_append {a : List Char} (b : List Char) (h : '.' ∉ a) :
    splitDotChars (a ++ '.' :: b) = a :: splitDotChars b := by
  induction a with
  | nil => simp [splitDotChars]
  | cons c cs ih =>
    rw [List.mem_cons] at h
    push_neg at h
    rw [List.cons_append]
    simp only [splitDotChars]
    rw [if_neg (fun hc => h.1 hc.symm), ih h.2]

theorem splitFieldLen_zero (f : FloatRepr) (h1 : '.' ∉ f.intStr.data) :
    splitFieldLen f 0 = f.intStr.length := by
  unfold splitFieldLen
  rw [pyFloatStr_data, splitDotChars_append _ h1, List.getD_cons_zero]
  exact (string_length_data f.intStr).symm

theorem splitFieldLen_one (f : FloatRepr) (h1 : '.' ∉ f.intStr.data)
    (h2 : '.' ∉ f.fracStr.data) :
    splitFieldLen f 1 = f.fracStr.length := by
  unfold splitFieldLen
  rw [pyFloatStr_data, splitDotChars_append _ h1, splitDotChars_no_dot h2,
    List.getD_cons_succ, List.getD_cons_zero]
  exact (string_length_data f.fracStr).symm

/-- `List.find?` returns the first element satisfying the predicate: if
every element before `m` fails the predicate and `m` satisfies it, the
search stops at `m`. -/
theorem find?_append_first {α : Type} {p : α → Bool} {m : α} (pre post : List α)
    (hpre : ∀ x ∈ pre, p x = false) (hpm : p m = true) :
    (pre ++ m :: post).find? p = some m := by
  induction pre with
  | nil => exact List.find?_cons_of_pos _ hpm
  | cons a l ih =>
    rw [List.cons_append,
      List.find?_cons_of_neg _ (by simp [hpre a (List.mem_cons_self a l)])]
    exact ih (fun x hx => hpre x (List.mem_cons_of_mem _ hx))

/-- Claim C3 counterexample: on the all-float column `[123.5, 1.25]` the
SQL-Server variant emits `NUMERIC(5,1)`: precision 5 is `len("123.5")`,
counting the decimal point — not the claimed total digit count 4 — and
scale 1 comes from the single longest-string value `123.5`, while the
claimed "equivalent" maximum fractional-digit count over all values is 2
(from `1.25`); the MySQL variant emits `NUMERIC(5,2)`, whose scale 2
differs from the longest value's fractional-digit count 1, so the two
readings are not equivalent. -/
theorem C3_counterexample :
    inferFloatSql [⟨"123", "5"⟩, ⟨"1", "25"⟩] = some ("NUMERIC", "(5,1)") ∧
    countDigits (pyFloatStr ⟨"123", "5"⟩) = 4 ∧ (5 : Nat) ≠ 4 ∧
    pyMax (splitFieldLen ⟨"123", "5"⟩ 1)
      ([(⟨"1", "25"⟩ : FloatRepr)].map (fun f => splitFieldLen f 1)) = 2 ∧
    (1 : Nat) ≠ 2 ∧
    inferFloatMysql [⟨"123", "5"⟩, ⟨"1", "25"⟩] = some ("NUMERIC", "(5,2)") := by
  refine ⟨by decide, by decide, by decide, by decide, by decide, by decide⟩

/-- Claim C3 (amended): in the SQL-Server variant, scale is the
fractional-digit count of the first value of maximal decimal-string
length (`m` below: every value before it is strictly shorter, no value is
longer — ties after it are allowed), and precision is that value's full
string length — integer digits + 1 for the decimal point + fractional
digits (and any sign character), not its digit count; in the MySQL
variant, scale is the maximum fractional-digit count over all values —
the claim's "equivalently" clause — and precision is that plus the
maximum integer-part string length. -/
theorem C3_numeric_amended (v : FloatRepr) (vs : List FloatRepr) (m : FloatRepr)
    (pre post : List FloatRepr)
    (hdot : ∀ x ∈ v :: vs, '.' ∉ x.intStr.data ∧ '.' ∉ x.fracStr.data)
    (hsplit : v :: vs = pre ++ m :: post)
    (hpre : ∀ x ∈ pre, floatStrLen x < floatStrLen m)
    (hub : ∀ x ∈ v :: vs, floatStrLen x ≤ floatStrLen m)
    (nI nF : Nat)
    (hubI : ∀ x ∈ v :: vs, x.intStr.length ≤ nI)
    (hatI : ∃ x ∈ v :: vs, x.intStr.length = nI)
    (hubF : ∀ x ∈ v :: vs, x.fracStr.length ≤ nF)
    (hatF : ∃ x ∈ v :: vs, x.fracStr.length = nF) :
    inferFloatSql (v :: vs) =
      some ("NUMERIC",
        "(" ++ toString (m.intStr.length + 1 + m.fracStr.length) ++ "," ++
          toString m.fracStr.length ++ ")") ∧
    inferFloatMysql (v :: vs) =
      some ("NUMERIC",
        "(" ++ toString (nI + nF) ++ "," ++ toString nF ++ ")") := by
  have hm : m ∈ v :: vs := by
    rw [hsplit]
    exact List.mem_append_right pre (List.mem_cons_self m post)
  constructor
  · have hmax : pyMax (floatStrLen v) (vs.map floatStrLen) = floatStrLen m := by
      rcases pyMax_map_attained floatStrLen v vs with ⟨y, hy, he⟩
      have h1 := pyMax_map_le floatStrLen hm
      have h2 := hub y hy
      omega
    have hfind : (v :: vs).find?
        (fun f => floatStrLen f == pyMax (floatStrLen v) (vs.map floatStrLen)) =
        some m := by
      rw [hsplit]
      apply find?_append_first
      · intro x hx
        show (floatStrLen x == pyMax (floatStrLen v) (vs.map floatStrLen)) = false
        rw [hmax]
        have hlt := hpre x hx
        exact beq_eq_false_iff_ne.mpr (by omega)
      · show (floatStrLen m == pyMax (floatStrLen v) (vs.map floatStrLen)) = true
        rw [hmax]
        simp
    simp only [inferFloatSql]
    rw [hfind]
    show some ("NUMERIC", "(" ++ toString (pyFloatStr m).length ++ "," ++
      toString (splitFieldLen m 1) ++ ")") = _
    rw [pyFloatStr_length m, splitFieldLen_one m (hdot m hm).1 (hdot m hm).2]
  · have hz : pyMax (splitFieldLen v 0) (vs.map (fun f => splitFieldLen f 0)) = nI := by
      refine pyMax_map_eq (fun f => splitFieldLen f 0) v vs nI ?_ ?_
      · intro x hx
        show splitFieldLen x 0 ≤ nI
        rw [splitFieldLen_zero x (hdot x hx).1]
        exact hubI x hx
      · rcases hatI with ⟨x, hx, he⟩
        refine ⟨x, hx, ?_⟩
        show splitFieldLen x 0 = nI
        rw [splitFieldLen_zero x (hdot x hx).1]
        exact he
    have ho : pyMax (splitFieldLen v 1) (vs.map (fun f => splitFieldLen f 1)) = nF := by
      refine pyMax_map_eq (fun f => splitFieldLen f 1) v vs nF ?_ ?_
      · intro x hx
        show splitFieldLen x 1 ≤ nF
        rw [splitFieldLen_one x (hdot x hx).1 (hdot x hx).2]
        exact hubF x hx
      · rcases hatF with ⟨x, hx, he⟩
        refine ⟨x, hx, ?_⟩
        show splitFieldLen x 1 = nF
        rw [splitFieldLen_one x (hdot x hx).1 (hdot x hx).2]
        exact he
    simp only [inferFloatMysql]
    rw [hz, ho]

/-- Every action in the SQL-Server insert loop's trace is the raw
parameterized insert of one of the rows. -/
theorem insertLoopSql_mem {db : DbBehavior} {rows : List (List Cell)} {a : DbAction}
    (h : a ∈ (insertLoopSql db rows).2) :
    ∃ r ∈ rows, a = .insertRow (r.map Param.pCell) := by
  induction rows with
  | nil => simp [insertLoopSql] at h
  | cons r rs ih =>
    simp only [insertLoopSql] at h
    split at h
    · rcases List.mem_cons.mp h with he | hm
      · exact ⟨r, List.mem_cons_self r rs, he⟩
      · rcases ih hm with ⟨q, hq, he⟩
        exact ⟨q, List.mem_cons_of_mem _ hq, he⟩
    · rw [List.mem_singleton] at h
      exact ⟨r, List.mem_cons_self r rs, h⟩

/-- Every action in the MySQL insert loop's trace is the parameterized
insert of one of the rows after NaN sanitization. -/
theorem insertLoopMysql_mem {db : DbBehavior} {rows : List (List Cell)} {a : DbAction}
    (h : a ∈ (insertLoopMysql db rows).2) :
    ∃ r ∈ rows, a = .insertRow (r.map mysqlSanitize) := by
  induction rows with
  | nil => simp [insertLoopMysql] at h
  | cons r rs ih =>
    simp only [insertLoopMysql] at h
    split at h
    · rcases List.mem_cons.mp h with he | hm
      · exact ⟨r, List.mem_cons_self r rs, he⟩
      · rcases ih hm with ⟨q, hq, he⟩
        exact ⟨q, List.mem_cons_of_mem _ hq, he⟩
    · rw [List.mem_singleton] at h
      exact ⟨r, List.mem_cons_self r rs, h⟩

/-- The insert loops issue no cursor/connection close. -/
theorem insertLoopSql_no_close {db : DbBehavior} {rows : List (List Cell)} :
    DbAction.closeCursor ∉ (insertLoopSql db rows).2 ∧
    DbAction.closeConn ∉ (insertLoopSql db rows).2 := by
  constructor <;> intro h <;> rcases insertLoopSql_mem h with ⟨r, _, he⟩ <;> cases he

theorem insertLoopMysql_no_close {db : DbBehavior} {rows : List (List Cell)} :
    DbAction.closeCursor ∉ (insertLoopMysql db rows).2 ∧
    DbAction.closeConn ∉ (insertLoopMysql db rows).2 := by
  constructor <;> intro h <;> rcases insertLoopMysql_mem h with ⟨r, _, he⟩ <;> cases he

/-- Any insert issued by the SQL-Server export binds the raw values of one
of the input rows. -/
theorem exportSql_insert_mem {cols : List (String × Column)} {rows : List (List Cell)}
    {tableName database : String} {ov : List (String × String)} {db : DbBehavior}
    {ps : List Param}
    (h : DbAction.insertRow ps ∈ (exportSql cols rows tableName database ov db).trace) :
    ∃ r ∈ rows, ps = r.map Param.pCell := by
  unfold exportSql at h
  split at h
  · simp at h
  · split at h
    · split at h
      · split at h
        · rename_i heq
          simp at h
          have h2 : DbAction.insertRow ps ∈ (insertLoopSql db rows).2 := by
            rw [heq]
            exact h
          rcases insertLoopSql_mem h2 with ⟨r, hr, he⟩
          exact ⟨r, hr, DbAction.insertRow.inj he⟩
        · rename_i heq
          simp at h
          have h2 : DbAction.insertRow ps ∈ (insertLoopSql db rows).2 := by
            rw [heq]
            exact h
          rcases insertLoopSql_mem h2 with ⟨r, hr, he⟩
          exact ⟨r, hr, DbAction.insertRow.inj he⟩
      · simp at h
    · simp at h

/-- Any insert issued by the MySQL export binds the NaN-sanitized values
of one of the input rows. -/
theorem exportMysql_insert_mem {cols : List (String × Column)} {rows : List (List Cell)}
    {tableName : String} {ov : List (String × String)} {db : DbBehavior}
    {ps : List Param}
    (h : DbAction.insertRow ps ∈ (exportMysql cols rows tableName ov db).trace) :
    ∃ r ∈ rows, ps = r.map mysqlSanitize := by
  unfold exportMysql at h
  split at h
  · simp at h
  · split at h
    · split at h
      · split at h
        · rename_i heq
          simp at h
          have h2 : DbAction.insertRow ps ∈ (insertLoopMysql db rows).2 := by
            rw [heq]
            exact h
          rcases insertLoopMysql_mem h2 with ⟨r, hr, he⟩
          exact ⟨r, hr, DbAction.insertRow.inj he⟩
        · rename_i heq
          simp at h
          have h2 : DbAction.insertRow ps ∈ (insertLoopMysql db rows).2 := by
            rw [heq]
            exact h
          rcases insertLoopMysql_mem h2 with ⟨r, hr, he⟩
          exact ⟨r, hr, DbAction.insertRow.inj he⟩
      · simp at h
    · simp at h

/-- Sanitization never outputs a raw NaN parameter. -/
theorem mysqlSanitize_ne_nan (c : Cell) : mysqlSanitize c ≠ Param.pCell Cell.cNaN := by
  cases c <;> simp [mysqlSanitize]

/-- A sanitized row contains no raw NaN parameter. -/
theorem no_nan_in_sanitized (r : List Cell) :
    Param.pCell Cell.cNaN ∉ r.map mysqlSanitize := by
  intro h
  rcases List.mem_map.mp h with ⟨c, _, he⟩
  exact mysqlSanitize_ne_nan c he

/-- A column loop containing a non-overridden column of unhandled dtype
raises: `buildSchemas` returns `none`. -/
theorem buildSchemas_err {inferCol : Column → Option (String × String)}
    {ov : List (String × String)} {cols : List (String × Column)}
    {n : String} {c : Column}
    (hmem : (n, c) ∈ cols) (hov : lookupOv ov n = none) (hinf : inferCol c = none) :
    buildSchemas inferCol ov cols = none := by
  induction cols with
  | nil => cases hmem
  | cons hd rest ih =>
    obtain ⟨hn, hc⟩ := hd
    rcases List.mem_cons.mp hmem with he | hmem2
    · rcases Prod.mk.injEq .. ▸ he with ⟨he1, he2⟩
      subst he1
      subst he2
      simp only [buildSchemas, hov, hinf]
    · simp only [buildSchemas]
      rcases hlk : lookupOv ov hn with _ | t
      · rcases hic : inferCol hc with _ | tl
        · rfl
        · obtain ⟨t2, l2⟩ := tl
          rw [ih hmem2]
          rfl
      · rw [ih hmem2]
        rfl
/-- Witness for C3 at the concrete tie column `[1.25, 3.75]` (both
decimal strings have length 4): the first maximal value `1.25` wins. -/
theorem C3_numeric_amended_witness :
    inferFloatSql [⟨"1", "25"⟩, ⟨"3", "75"⟩] =
      some ("NUMERIC",
        "(" ++ toString (("1" : String).length + 1 + ("25" : String).length) ++ "," ++
          toString ("25" : String).length ++ ")") ∧
    inferFloatMysql [⟨"1", "25"⟩, ⟨"3", "75"⟩] =
      some ("NUMERIC", "(" ++ toString (1 + 2) ++ "," ++ toString 2 ++ ")") :=
  C3_numeric_amended ⟨"1", "25"⟩ [⟨"3", "75"⟩] ⟨"1", "25"⟩ [] [⟨"3", "75"⟩]
    (by decide) (by decide) (by decide) (by decide) 1 2
    (by decide) (by decide) (by decide) (by decide)

/-- Closing actions appear in the SQL-Server export's trace exactly when
the call returns normally. -/
theorem exportSql_close_iff (cols : List (String × Column)) (rows : List (List Cell))
    (tableName database : String) (ov : List (String × String)) (db : DbBehavior) :
    (DbAction.closeCursor ∈ (exportSql cols rows tableName database ov db).trace ↔
      (exportSql cols rows tableName database ov db).result = .ok) ∧
    (DbAction.closeConn ∈ (exportSql cols rows tableName database ov db).trace ↔
      (exportSql cols rows tableName database ov db).result = .ok) := by
  unfold exportSql
  split
  · simp
  · split
    · split
      · split
        · simp
        · rename_i heq
          have hnc := @insertLoopSql_no_close db rows
          rw [heq] at hnc
          simp
          exact ⟨fun hm => hnc.1 hm, fun hm => hnc.2 hm⟩
      · simp
    · simp

/-- The MySQL export never closes its cursor or connection. -/
theorem exportMysql_noclose (cols : List (String × Column)) (rows : List (List Cell))
    (tableName : String) (ov : List (String × String)) (db : DbBehavior) :
    DbAction.closeCursor ∉ (exportMysql cols rows tableName ov db).trace ∧
    DbAction.closeConn ∉ (exportMysql cols rows tableName ov db).trace := by
  unfold exportMysql
  split
  · simp
  · split
    · split
      · split
        · rename_i heq
          have hnc := @insertLoopMysql_no_close db rows
          rw [heq] at hnc
          simp
          exact ⟨fun hm => hnc.1 hm, fun hm => hnc.2 hm⟩
        · rename_i heq
          have hnc := @insertLoopMysql_no_close db rows
          rw [heq] at hnc
          simp
          exact ⟨fun hm => hnc.1 hm, fun hm => hnc.2 hm⟩
      · simp
    · simp

/-- Claim C2 (code bug): with override `{"age": "INT"}` on the integer
column `age = [0..5]`, the override does bypass inference (`continue`
stores the raw string), but the emitted clause is `"age I N T"` — the
final `" ".join(col_dat_type[i])` iterates the override STRING character
by character instead of a `[type, "NULL"]` list — not the claimed exactly
`"INT"` (clause `"age INT"`).  Both variants share this code path. -/
theorem C2_override_join_bug :
    buildSchemas inferColSql [("age", "INT")] [("age", Column.intc [0, 1, 2, 3, 4, 5])] =
      some [("age", SchemaVal.ovr "INT")] ∧
    buildSchemas inferColMysql [("age", "INT")] [("age", Column.intc [0, 1, 2, 3, 4, 5])] =
      some [("age", SchemaVal.ovr "INT")] ∧
    ddlCols [("age", SchemaVal.ovr "INT")] = "age I N T" ∧
    ("age I N T" : String) ≠ "age INT" := by
  refine ⟨by decide, by decide, by decide, by decide⟩

/-- Claim C4 counterexample: the SQL-Server variant issues the row
`[NaN]` as the raw parameter `[pCell cNaN]` — no null marker is
substituted before the parameterized insert. -/
theorem C4_counterexample :
    (exportSql [("x", Column.floatc [⟨"1", "5"⟩])] [[Cell.cNaN]] "t" "d" []
        ⟨true, true, fun _ => true⟩).trace =
      [DbAction.connect,
       DbAction.createTable "CREATE TABLE [d].[dbo].[t] (x NUMERIC(3,1) NULL)",
       DbAction.commit,
       DbAction.insertRow [Param.pCell Cell.cNaN],
       DbAction.commit, DbAction.closeCursor, DbAction.closeConn] ∧
    Param.pCell Cell.cNaN ≠ Param.pNull := by
  refine ⟨by decide, by decide⟩

/-- Claim C4 (amended): only the MySQL variant substitutes the null
marker for NaN before its parameterized inserts — every insert it issues
binds a NaN-free sanitized row; the SQL-Server variant issues each row's
values raw, NaN included. -/
theorem C4_nan_null_amended (cols : List (String × Column)) (rows : List (List Cell))
    (tableName database : String) (ov : List (String × String)) (db : DbBehavior) :
    (∀ ps, DbAction.insertRow ps ∈ (exportMysql cols rows tableName ov db).trace →
      (∃ r ∈ rows, ps = r.map mysqlSanitize) ∧ Param.pCell Cell.cNaN ∉ ps) ∧
    (∀ ps, DbAction.insertRow ps ∈ (exportSql cols rows tableName database ov db).trace →
      ∃ r ∈ rows, ps = r.map Param.pCell) := by
  constructor
  · intro ps hmem
    rcases exportMysql_insert_mem hmem with ⟨r, hr, he⟩
    refine ⟨⟨r, hr, he⟩, ?_⟩
    rw [he]
    exact no_nan_in_sanitized r
  · intro ps hmem
    exact exportSql_insert_mem hmem

/-- Witness for C4: the MySQL export of the NaN row `[[cNaN]]` issues the
insert `[pNull]`, which indeed contains no raw NaN and is the sanitized
image of an input row. -/
theorem C4_nan_null_amended_witness :
    Param.pCell Cell.cNaN ∉ [Param.pNull] ∧
    ∃ r ∈ [[Cell.cNaN]], [Param.pNull] = r.map mysqlSanitize :=
  let h := (C4_nan_null_amended [("x", Column.floatc [⟨"1", "5"⟩])] [[Cell.cNaN]]
    "t" "d" [] ⟨true, true, fun _ => true⟩).1 [Param.pNull] (by decide)
  ⟨h.2, h.1⟩

/-- Claim C5: if CREATE TABLE fails (inference and connection having
succeeded), both variants abort with the error surfaced to the caller and
no insert statement is ever issued. -/
theorem C5_create_failure_atomic (cols : List (String × Column)) (rows : List (List Cell))
    (tableName database : String) (ov : List (String × String)) (db : DbBehavior)
    (s1 s2 : List (String × SchemaVal))
    (h1 : buildSchemas inferColSql ov (cols.map (fun p => (sanitizeName p.1, p.2))) = some s1)
    (h2 : buildSchemas inferColMysql ov (cols.map (fun p => (sanitizeName p.1, p.2))) = some s2)
    (hc : db.connectOk = true) (hcr : db.createOk = false) :
    (exportSql cols rows tableName database ov db).result = .err .createError ∧
    (∀ ps, DbAction.insertRow ps ∉ (exportSql cols rows tableName database ov db).trace) ∧
    (exportMysql cols rows tableName ov db).result = .err .createError ∧
    (∀ ps, DbAction.insertRow ps ∉ (exportMysql cols rows tableName ov db).trace) := by
  have hs : exportSql cols rows tableName database ov db =
      ⟨.err .createError, [.connect, .createTable (sqlDdl database tableName s1)],
        cols.map (fun p => sanitizeName p.1)⟩ := by
    unfold exportSql
    simp only [h1, hc, hcr]
    simp
  have hm : exportMysql cols rows tableName ov db =
      ⟨.err .createError, [.connect, .createTable (mysqlDdl tableName s2)],
        cols.map (fun p => sanitizeName p.1)⟩ := by
    unfold exportMysql
    simp only [h2, hc, hcr]
    simp
  rw [hs, hm]
  refine ⟨rfl, ?_, rfl, ?_⟩
  · intro ps hmem
    simp at hmem
  · intro ps hmem
    simp at hmem

/-- Witness for C5 on a one-column, one-row dataframe against a database
whose CREATE TABLE fails. -/
theorem C5_create_failure_atomic_witness :
    (exportSql [("a", Column.intc [1])] [[Cell.cInt 1]] "t" "d" []
        ⟨true, false, fun _ => true⟩).result =
      ExportResult.err ExportError.createError ∧
    DbAction.insertRow [Param.pCell (Cell.cInt 1)] ∉
      (exportSql [("a", Column.intc [1])] [[Cell.cInt 1]] "t" "d" []
        ⟨true, false, fun _ => true⟩).trace :=
  ⟨(C5_create_failure_atomic [("a", Column.intc [1])] [[Cell.cInt 1]] "t" "d" []
      ⟨true, false, fun _ => true⟩ [("a", SchemaVal.inferred ["TINYINT", "NULL"])]
      [("a", SchemaVal.inferred ["TINYINT(1)", "NULL"])]
      (by decide) (by decide) rfl rfl).1,
   (C5_create_failure_atomic [("a", Column.intc [1])] [[Cell.cInt 1]] "t" "d" []
      ⟨true, false, fun _ => true⟩ [("a", SchemaVal.inferred ["TINYINT", "NULL"])]
      [("a", SchemaVal.inferred ["TINYINT(1)", "NULL"])]
      (by decide) (by decide) rfl rfl).2.1 [Param.pCell (Cell.cInt 1)]⟩

/-- Claim C7 counterexample: when CREATE TABLE fails, the SQL-Server
export raises but its trace contains no cursor close and no connection
close — the connection is NOT released on this error exit path (there is
no try/finally in the source). -/
theorem C7_counterexample :
    (exportSql [("a", Column.intc [1])] [] "t" "d" []
        ⟨true, false, fun _ => true⟩).result =
      ExportResult.err ExportError.createError ∧
    DbAction.closeConn ∉
      (exportSql [("a", Column.intc [1])] [] "t" "d" []
        ⟨true, false, fun _ => true⟩).trace ∧
    DbAction.closeCursor ∉
      (exportSql [("a", Column.intc [1])] [] "t" "d" []
        ⟨true, false, fun _ => true⟩).trace := by
  refine ⟨by decide, by decide, by decide⟩

/-- Claim C7 (amended): the SQL-Server variant closes cursor and
connection exactly on the fully successful path and closes nothing on any
raised-error path; the MySQL variant never closes its cursor or
connection on any path. -/
theorem C7_release_amended (cols : List (String × Column)) (rows : List (List Cell))
    (tableName database : String) (ov : List (String × String)) (db : DbBehavior) :
    ((exportSql cols rows tableName database ov db).result = .ok →
      DbAction.closeCursor ∈ (exportSql cols rows tableName database ov db).trace ∧
      DbAction.closeConn ∈ (exportSql cols rows tableName database ov db).trace) ∧
    (∀ e, (exportSql cols rows tableName database ov db).result = .err e →
      DbAction.closeCursor ∉ (exportSql cols rows tableName database ov db).trace ∧
      DbAction.closeConn ∉ (exportSql cols rows tableName database ov db).trace) ∧
    DbAction.closeCursor ∉ (exportMysql cols rows tableName ov db).trace ∧
    DbAction.closeConn ∉ (exportMysql cols rows tableName ov db).trace := by
  have hiff := exportSql_close_iff cols rows tableName database ov db
  have hnc := exportMysql_noclose cols rows tableName ov db
  refine ⟨fun hok => ⟨hiff.1.mpr hok, hiff.2.mpr hok⟩, ?_, hnc.1, hnc.2⟩
  intro e he
  constructor
  · intro hm
    have hok := hiff.1.mp hm
    rw [he] at hok
    cases hok
  · intro hm
    have hok := hiff.2.mp hm
    rw [he] at hok
    cases hok

/-- Witness for C7: a successful SQL-Server export does close the
connection, and a successful MySQL export still does not. -/
theorem C7_release_amended_witness :
    DbAction.closeConn ∈ (exportSql [("a", Column.intc [1])] [] "t" "d" []
      ⟨true, true, fun _ => true⟩).trace ∧
    DbAction.closeConn ∉ (exportMysql [("a", Column.intc [1])] [] "t" []
      ⟨true, true, fun _ => true⟩).trace :=
  ⟨((C7_release_amended [("a", Column.intc [1])] [] "t" "d" []
      ⟨true, true, fun _ => true⟩).1 (by decide)).2,
   (C7_release_amended [("a", Column.intc [1])] [] "t" "d" []
      ⟨true, true, fun _ => true⟩).2.2.2⟩

/-- Claim C8: every call of either variant assigns the sanitized column
names (each `'.'` replaced by `'_'`) onto the caller's dataframe before
any database work, so after the call — including calls that fail at any
later stage, for any database behavior — the dataframe carries the
sanitized names; sanitized names contain no `'.'`. -/
theorem C8_df_mutation (cols : List (String × Column)) (rows : List (List Cell))
    (tableName database : String) (ov : List (String × String)) (db : DbBehavior) :
    (exportSql cols rows tableName database ov db).dfCols =
      cols.map (fun p => sanitizeName p.1) ∧
    (exportMysql cols rows tableName ov db).dfCols =
      cols.map (fun p => sanitizeName p.1) ∧
    (∀ t : String, '.' ∉ (sanitizeName t).data) := by
  refine ⟨?_, ?_, ?_⟩
  · unfold exportSql
    split
    · rfl
    · split
      · split
        · split <;> rfl
        · rfl
      · rfl
  · unfold exportMysql
    split
    · rfl
    · split
      · split
        · split <;> rfl
        · rfl
      · rfl
  · intro t hc
    have hc2 : '.' ∈ t.data.map (fun c => if c = '.' then '_' else c) := hc
    rcases List.mem_map.mp hc2 with ⟨c, _, he⟩
    by_cases h : c = '.'
    · rw [if_pos h] at he
      exact absurd he (by decide)
    · rw [if_neg h] at he
      exact h he

/-- Witness for C8: after a call that fails to connect, the caller's
dataframe carries the sanitized column name `a_b` in place of `a.b`. -/
theorem C8_df_mutation_witness :
    (exportSql [("a.b", Column.intc [1])] [] "t" "d" []
      ⟨false, true, fun _ => true⟩).dfCols = ["a_b"] :=
  ((C8_df_mutation [("a.b", Column.intc [1])] [] "t" "d" []
    ⟨false, true, fun _ => true⟩).1).trans (by decide)

/-- Claim C9: a non-overridden column whose dtype is none of object,
integer or float (bool, datetime, …) makes the inference loop reach the
schema-recording step with `dat_type` unbound; the call raises before any
database connection is opened, so the trace is empty and no table is
created — in both variants. -/
theorem C9_unhandled_dtype (cols : List (String × Column)) (rows : List (List Cell))
    (tableName database : String) (ov : List (String × String)) (db : DbBehavior)
    (n : String) (hmem : (n, Column.other) ∈ cols)
    (hov : lookupOv ov (sanitizeName n) = none) :
    (exportSql cols rows tableName database ov db).result = .err .inferError ∧
    (exportSql cols rows tableName database ov db).trace = [] ∧
    (exportMysql cols rows tableName ov db).result = .err .inferError ∧
    (exportMysql cols rows tableName ov db).trace = [] := by
  have hmem2 : (sanitizeName n, Column.other) ∈ cols.map (fun p => (sanitizeName p.1, p.2)) := by
    have hx := List.mem_map_of_mem (fun p : String × Column => (sanitizeName p.1, p.2)) hmem
    simpa using hx
  have hb1 : buildSchemas inferColSql ov (cols.map (fun p => (sanitizeName p.1, p.2))) = none :=
    buildSchemas_err hmem2 hov rfl
  have hb2 : buildSchemas inferColMysql ov (cols.map (fun p => (sanitizeName p.1, p.2))) = none :=
    buildSchemas_err hmem2 hov rfl
  unfold exportSql exportMysql
  simp only [hb1, hb2]
  exact ⟨trivial, trivial, trivial, trivial⟩

/-- Witness for C9 on a single unhandled (e.g. boolean) column. -/
theorem C9_unhandled_dtype_witness :
    (exportSql [("b", Column.other)] [] "t" "d" []
      ⟨true, true, fun _ => true⟩).result = ExportResult.err ExportError.inferError ∧
    (exportMysql [("b", Column.other)] [] "t" []
      ⟨true, true, fun _ => true⟩).trace = [] :=
  ⟨(C9_unhandled_dtype [("b", Column.other)] [] "t" "d" []
      ⟨true, true, fun _ => true⟩ "b" (by decide) (by decide)).1,
   (C9_unhandled_dtype [("b", Column.other)] [] "t" "d" []
      ⟨true, true, fun _ => true⟩ "b" (by decide) (by decide)).2.2.2⟩

end Tools
